import Mathlib

/-!
Verification of the smart-study-scheduler server (`public/index.js`) against its
specification.  The JavaScript route handlers are shallowly embedded as pure
Lean functions over an explicit database state; external collaborators
(PostgreSQL driver, `jsonwebtoken`, `bcrypt`, `JSON.parse`, the generative-AI
service) are modelled by oracle parameters or by small definitions that follow
their documented contracts.
-/

namespace StudyApp

/-- A JavaScript/JSON value, as produced by `JSON.parse` of the cleaned model
response in the POST /form handler (index.js line 180).  Numbers are modelled
as integers; no claim depends on fractional numerics. -/
inductive Json where
  | null : Json
  | bool (b : Bool) : Json
  | num (n : Int) : Json
  | str (s : String) : Json
  | arr (elems : List Json) : Json
  | obj (fields : List (String × Json)) : Json

mutual

/-- Text rendering of a JSON value, modelling the `pg` driver's conversion of a
non-null JavaScript parameter value to query text (string escaping omitted;
no claim depends on nested-value serialisation). -/
def Json.stringify : Json → String
  | Json.null => "null"
  | Json.bool b => cond b "true" "false"
  | Json.num n => toString n
  | Json.str s => s
  | Json.arr xs => "[" ++ stringifyArr xs ++ "]"
  | Json.obj fs => "\x7b" ++ stringifyObj fs ++ "\x7d"

/-- Comma-separated rendering of a JSON array's elements. -/
def stringifyArr : List Json → String
  | [] => ""
  | [j] => Json.stringify j
  | j :: rest => Json.stringify j ++ "," ++ stringifyArr rest

/-- Comma-separated rendering of a JSON object's fields. -/
def stringifyObj : List (String × Json) → String
  | [] => ""
  | [(k, v)] => k ++ ":" ++ Json.stringify v
  | (k, v) :: rest => k ++ ":" ++ Json.stringify v ++ "," ++ stringifyObj rest

end

/-- The `pg` driver's conversion of a JavaScript value bound as a query
parameter: `null` becomes SQL NULL, anything else its text form. -/
def asPgText : Json → Option String
  | Json.null => none
  | j => some (Json.stringify j)

/-- JavaScript property access `v[k]` as used for `item.dayOfWeek` etc.
(index.js line 187): a key lookup on objects, `undefined` (here `none`) on
every non-object value and on missing keys. -/
def jsGet (j : Json) (k : String) : Option Json :=
  match j with
  | Json.obj fs => (fs.find? (fun p => p.1 == k)).map (fun p => p.2)
  | _ => none

/-- JavaScript `for...of` iterability (index.js line 186): arrays iterate
their elements, strings iterate their characters (each a one-character
string), and every other value throws a TypeError (`none`). -/
def jsIterate : Json → Option (List Json)
  | Json.arr xs => some xs
  | Json.str s => some (s.data.map (fun c => Json.str (String.singleton c)))
  | _ => none

/-- The value bound for column `k` of an insert: property access followed by
the driver's conversion, with JavaScript `undefined` also becoming SQL NULL. -/
def pgVal (item : Json) (k : String) : Option String :=
  (jsGet item k).bind asPgText

/-- A row of the `schedule_items` table (columns as in the INSERT at
index.js line 187). -/
structure ScheduleRow where
  day_of_week : Option String
  start_time : Option String
  end_time : Option String
  subject : Option String
  user_id : Nat
deriving DecidableEq

/-- A row of the `users` table (columns used at index.js lines 98, 133-137,
154, 189). -/
structure UserRow where
  id : Nat
  name : String
  email : String
  password : String
  daily_focus_hours : Option String
deriving DecidableEq

/-- A row of the `user_streaks` table (index.js line 100). -/
structure StreakRow where
  user_id : Nat
  streak_count : Int
  longest_streak : Int
deriving DecidableEq

/-- The committed database state. -/
structure DB where
  users : List UserRow
  schedule_items : List ScheduleRow
  user_streaks : List StreakRow
deriving DecidableEq

/-- `DELETE FROM schedule_items WHERE user_id = $1` (index.js line 185). -/
def delItems (uid : Nat) (db : DB) : DB :=
  { db with schedule_items := db.schedule_items.filter (fun r => r.user_id != uid) }

/-- `INSERT INTO schedule_items ...` (index.js line 187): appends one row. -/
def insRow (row : ScheduleRow) (db : DB) : DB :=
  { db with schedule_items := db.schedule_items ++ [row] }

/-- `UPDATE users SET daily_focus_hours = $1 WHERE id = $2`
(index.js line 189). -/
def updUser (uid : Nat) (v : Option String) (db : DB) : DB :=
  { db with users := db.users.map (fun u =>
      if u.id == uid then { u with daily_focus_hours := v } else u) }

/-- A database operation issued on the dedicated client in the POST /form
transaction. -/
inductive DbOp where
  | begin : DbOp
  | commit : DbOp
  | rollback : DbOp
  | del (uid : Nat) : DbOp
  | ins (row : ScheduleRow) : DbOp
  | upd (dailytime : Option String) (uid : Nat) : DbOp
deriving DecidableEq

/-- The user id a database operation writes under, if it is a row write. -/
def DbOp.targetUser : DbOp → Option Nat
  | DbOp.del uid => some uid
  | DbOp.ins row => some row.user_id
  | DbOp.upd _ uid => some uid
  | _ => none

/-- Lifecycle events of the dedicated client in the POST /form handler:
checkout (`db.connect()`, line 172), each query, and `client.release()`
(line 201). -/
inductive Event where
  | connect : Event
  | query (op : DbOp) : Event
  | release : Event
deriving DecidableEq

/-- An HTTP response produced by a route handler: `res.redirect`,
`res.render(view, locals)` with an optional error message, a
`res.status(n).send(msg)`, a JSON body, or an exception escaping the handler
with no response sent. -/
inductive Response where
  | redirect (loc : String) : Response
  | render (view : String) (error : Option String) : Response
  | send (status : Nat) (body : String) : Response
  | json (fields : List (String × String)) : Response
  | raised : Response
deriving DecidableEq

/-- The claims a session token carries (index.js lines 138, 160). -/
structure JwtPayload where
  id : Nat
  name : String
deriving DecidableEq

/-- A signed session token. Modelled from the external `jsonwebtoken`
library's contract: the signature is represented by remembering the signing
secret, and `expiresIn: '1d'` fixes `exp = iat + 86400` seconds. -/
structure Token where
  payload : JwtPayload
  iat : Nat
  exp : Nat
  secret : String
deriving DecidableEq

/-- `jwt.sign(payload, secret, { expiresIn: '1d' })`
(index.js lines 138, 160). Modelled from the `jsonwebtoken` contract. -/
def jwtSign (p : JwtPayload) (secret : String) (now : Nat) : Token :=
  { payload := p, iat := now, exp := now + 86400, secret := secret }

/-- `jwt.verify(token, secret, cb)` (index.js line 75). Modelled from the
`jsonwebtoken` contract: succeeds iff the signature matches the secret and
the token is not yet expired (`now < exp`). -/
def jwtVerify (t : Token) (secret : String) (now : Nat) : Except Unit JwtPayload :=
  if t.secret = secret ∧ now < t.exp then Except.ok t.payload else Except.error ()

/-- Outcome of the `verifyToken` middleware: either an immediate response
(with or without clearing the `token` cookie) or the decoded user passed to
the route handler. -/
structure MwResult where
  resp : Option Response
  clearedCookie : Bool
  user : Option JwtPayload
deriving DecidableEq

/-- The `verifyToken` middleware (index.js lines 72-83): missing cookie
redirects to `/`; a token failing verification has the cookie cleared and
redirects to `/`; otherwise the decoded payload becomes `req.user`. -/
def verifyToken (cookieToken : Option Token) (secret : String) (now : Nat) : MwResult :=
  match cookieToken with
  | none => { resp := some (Response.redirect "/"), clearedCookie := false, user := none }
  | some t =>
    match jwtVerify t secret now with
    | Except.error _ =>
      { resp := some (Response.redirect "/"), clearedCookie := true, user := none }
    | Except.ok decoded =>
      { resp := none, clearedCookie := false, user := some decoded }

/-- A session-protected route (`GET /form`, `GET /dashboard`, `POST /form`):
`verifyToken` runs first and the handler body runs only when it calls
`next()`.  Returns the response and whether the handler body executed. -/
def runProtected (handler : JwtPayload → Response) (cookieToken : Option Token)
    (secret : String) (now : Nat) : Response × Bool :=
  let m := verifyToken cookieToken secret now
  match m.user with
  | some u => (handler u, true)
  | none => (m.resp.getD (Response.redirect "/"), false)

/-- The request body of POST /form (index.js line 175), parsed by
`express.urlencoded`: each field is a string when submitted, absent
otherwise. -/
structure FormBody where
  goal : Option String
  subjects : Option String
  methods : Option String
  deadline : Option String
  remarks : Option String
  dailytime : Option String
  slots : Option String
  flexibility : Option String
deriving DecidableEq

/-- The backquote character, written by code point to keep it out of the
source text. -/
def backquote : Char := Char.ofNat 96

/-- One left-to-right pass deleting every occurrence of the seven-character
fence marker (backquote, backquote, backquote, j, s, o, n), modelling
`.replace(/```json/g, '')` at index.js line 179. -/
def stripJsonFence : List Char → List Char
  | a :: b :: c :: d :: e :: f :: g :: tail =>
    if a = backquote ∧ b = backquote ∧ c = backquote ∧ d = 'j' ∧ e = 's' ∧ f = 'o' ∧ g = 'n' then
      stripJsonFence tail
    else a :: stripJsonFence (b :: c :: d :: e :: f :: g :: tail)
  | a :: rest => a :: stripJsonFence rest
  | [] => []

/-- One left-to-right pass deleting every occurrence of the three-character
fence marker, modelling `.replace(/```/g, '')` at index.js line 179. -/
def stripFence : List Char → List Char
  | a :: b :: c :: tail =>
    if a = backquote ∧ b = backquote ∧ c = backquote then stripFence tail
    else a :: stripFence (b :: c :: tail)
  | a :: rest => a :: stripFence rest
  | [] => []

/-- Whitespace as removed by JavaScript `String.prototype.trim` (the common
characters; exotic Unicode spaces are not modelled). -/
def isWs (c : Char) : Bool := c = ' ' ∨ c = '\n' ∨ c = '\t' ∨ c = '\r'

/-- Cleaning of the raw model response (index.js line 179): remove every
markdown fence marker, then trim surrounding whitespace. -/
def cleanResponse (s : String) : String :=
  String.mk ((((stripFence (stripJsonFence s.data)).dropWhile isWs).reverse.dropWhile isWs).reverse)

/-- The schedule row built from one iterated value (index.js line 187):
each column is the JavaScript property of that name, converted by the
driver, and `user_id` is `req.user.id`. -/
def mkRow (item : Json) (uid : Nat) : ScheduleRow :=
  { day_of_week := pgVal item "dayOfWeek"
    start_time := pgVal item "startTime"
    end_time := pgVal item "endTime"
    subject := pgVal item "subject"
    user_id := uid }

/-- The insert loop of the transaction (index.js lines 186-188), threading
the transaction-local state; `fails` says which operations the database
rejects.  Returns the resulting state (or the error) and the list of
operations attempted, in order. -/
def runInserts (fails : DbOp → Bool) (uid : Nat) :
    List Json → DB → Except Unit DB × List DbOp
  | [], work => (Except.ok work, [])
  | item :: rest, work =>
    let row := mkRow item uid
    if fails (DbOp.ins row) then (Except.error (), [DbOp.ins row])
    else
      let p := runInserts fails uid rest (insRow row work)
      (p.1, DbOp.ins row :: p.2)

/-- The persistence transaction of POST /form (index.js lines 184-190):
BEGIN, DELETE of the user's rows, one INSERT per iterated value of the
parsed response `j` (a TypeError if `j` is not iterable), the
daily-focus-hours UPDATE, COMMIT.  The committed state is published only by
a successful COMMIT; any failure yields the error together with the
operations attempted. -/
def runTx (fails : DbOp → Bool) (uid : Nat) (dailytime : Option String)
    (j : Json) (db : DB) : Except Unit DB × List DbOp :=
  if fails DbOp.begin then (Except.error (), [DbOp.begin])
  else if fails (DbOp.del uid) then (Except.error (), [DbOp.begin, DbOp.del uid])
  else
    match jsIterate j with
    | none => (Except.error (), [DbOp.begin, DbOp.del uid])
    | some items =>
      match runInserts fails uid items (delItems uid db) with
      | (Except.error e, ops) => (Except.error e, DbOp.begin :: DbOp.del uid :: ops)
      | (Except.ok w2, ops) =>
        if fails (DbOp.upd dailytime uid) then
          (Except.error (), DbOp.begin :: DbOp.del uid :: (ops ++ [DbOp.upd dailytime uid]))
        else if fails DbOp.commit then
          (Except.error (),
            DbOp.begin :: DbOp.del uid :: (ops ++ [DbOp.upd dailytime uid, DbOp.commit]))
        else
          (Except.ok (updUser uid dailytime w2),
            DbOp.begin :: DbOp.del uid :: (ops ++ [DbOp.upd dailytime uid, DbOp.commit]))

/-- Outcome of one POST /form request: the committed database, the response,
and the dedicated client's lifecycle events. -/
structure FormResult where
  db : DB
  resp : Response
  events : List Event
deriving DecidableEq

/-- The client lifecycle of the handler: checkout, the queries attempted,
and the `finally`-guaranteed release (index.js lines 172, 199-202). -/
def formEvents (ops : List DbOp) : List Event :=
  Event.connect :: (ops.map Event.query ++ [Event.release])

/-- The fixed failure message of POST /form (index.js line 198). -/
def errorMessage : String := "An error occurred while generating the schedule."

/-- The POST /form handler body after `verifyToken` (index.js lines 170-204).
`genOk` is whether the external `generateContent` call returned (rather than
threw); `genText` its response text; `parse` models `JSON.parse`, returning
the parsed value or a SyntaxError.  The catch block issues ROLLBACK and
answers 500; if the ROLLBACK itself throws, the exception escapes with no
response.  The `finally` block releases the client on every path. -/
def postForm (fails : DbOp → Bool) (parse : String → Except Unit Json)
    (genOk : Bool) (genText : String) (user : JwtPayload) (body : FormBody)
    (db : DB) : FormResult :=
  let fail500 := fun (ops : List DbOp) =>
    if fails DbOp.rollback then
      { db := db, resp := Response.raised, events := formEvents (ops ++ [DbOp.rollback]) }
    else
      { db := db, resp := Response.send 500 errorMessage,
        events := formEvents (ops ++ [DbOp.rollback]) }
  if genOk = false then fail500 []
  else
    match parse (cleanResponse genText) with
    | Except.error _ => fail500 []
    | Except.ok j =>
      match runTx fails user.id body.dailytime j db with
      | (Except.error _, ops) => fail500 ops
      | (Except.ok d2, ops) =>
        { db := d2, resp := Response.redirect "/dashboard", events := formEvents ops }

/-- Rank given to a `day_of_week` value by the CASE expression of the
dashboard query (index.js line 99): Monday first, anything unrecognised
(including NULL) last. -/
def dayRank : Option String → Nat
  | some "Monday" => 1
  | some "Tuesday" => 2
  | some "Wednesday" => 3
  | some "Thursday" => 4
  | some "Friday" => 5
  | some "Saturday" => 6
  | _ => 7

/-- Sort key for `start_time` within a day: non-null values in string order,
NULL last (PostgreSQL default NULLS LAST for ascending sort). -/
def timeKey : Option String → Lex (Nat × String)
  | some s => toLex (0, s)
  | none => toLex (1, "")

/-- Full sort key of the dashboard's ORDER BY: day rank, then start time. -/
def rowKey (r : ScheduleRow) : Lex (Nat × Lex (Nat × String)) :=
  toLex (dayRank r.day_of_week, timeKey r.start_time)

/-- Boolean comparator realising the ORDER BY of the dashboard query. -/
def rowLe (a b : ScheduleRow) : Bool := decide (rowKey a ≤ rowKey b)

/-- `streakResult.rows[0]` (index.js line 107): the first row of the
user's `user_streaks` query, if any. -/
def streakRowFor (db : DB) (uid : Nat) : Option StreakRow :=
  db.user_streaks.find? (fun s => s.user_id == uid)

/-- The `focusedTimeDisplay` expression (index.js line 108): a falsy
`daily_focus_hours` (NULL or empty) displays as N/A. -/
def focusDisplay : Option String → String
  | none => "N/A"
  | some s => if s.isEmpty then "N/A" else s ++ " Hours/Day"

/-- Outcome of GET /dashboard: a redirect, the error page, or the rendered
read model (index.js lines 103, 110-117, 120). -/
inductive DashResult where
  | redirect (loc : String) : DashResult
  | error500 (msg : String) : DashResult
  | page (name : String) (items : List ScheduleRow) (focusedTime : String)
         (streak_count : Int) (longest_streak : Int) (insight : String) : DashResult
deriving DecidableEq

/-- The GET /dashboard handler body after `verifyToken` (index.js
lines 93-122).  `qfails` is whether any of the three pooled queries throws;
the schedule query's ORDER BY is modelled by `mergeSort` with `rowLe`; a
missing user row redirects to `/`; a missing streak row defaults to 0/0. -/
def getDashboard (qfails : Bool) (db : DB) (uid : Nat) : DashResult :=
  if qfails then DashResult.error500 "Error loading dashboard."
  else
    match db.users.find? (fun u => u.id == uid) with
    | none => DashResult.redirect "/"
    | some u =>
      let items := (db.schedule_items.filter (fun r => r.user_id == uid)).mergeSort rowLe
      let sc := match streakRowFor db uid with
        | none => (0 : Int)
        | some srow => srow.streak_count
      let ls := match streakRowFor db uid with
        | none => (0 : Int)
        | some srow => srow.longest_streak
      DashResult.page u.name items (focusDisplay u.daily_focus_hours) sc ls
        "Planning is the first step to success!"

/-- JavaScript falsiness of an optional string field (`!name` at index.js
lines 131, 152): absent or empty. -/
def strFalsy : Option String → Bool
  | none => true
  | some s => s.isEmpty

/-- The request body of POST /register (index.js line 129). -/
structure RegisterBody where
  name : Option String
  email : Option String
  password : Option String
deriving DecidableEq

/-- The request body of POST /login (index.js line 150). -/
structure LoginBody where
  email : Option String
  password : Option String
deriving DecidableEq

/-- Outcome of POST /register or POST /login: the database, the response,
and the session-token cookie set, if any. -/
structure AuthResult where
  db : DB
  resp : Response
  cookie : Option Token
deriving DecidableEq

/-- The POST /register handler (index.js lines 127-146).  `bhash` models
`bcrypt.hash(password, 10)` (one-way salted hash); `selFails`/`insFails`
are whether the SELECT/INSERT throws; `nextId` is the serial id the INSERT
returns.  Duplicate email re-renders the auth page with an error and stores
nothing; success appends the row with the hashed password, sets the token
cookie, and redirects to /form. -/
def postRegister (bhash : String → String) (selFails insFails : Bool)
    (secret : String) (now nextId : Nat) (db : DB) (body : RegisterBody) : AuthResult :=
  if strFalsy body.name || strFalsy body.email || strFalsy body.password then
    { db := db, resp := Response.render "auth.ejs" (some "All fields are required."),
      cookie := none }
  else
    let name := body.name.getD ""
    let email := body.email.getD ""
    let password := body.password.getD ""
    if selFails then
      { db := db, resp := Response.render "auth.ejs" (some "An internal server error occurred."),
        cookie := none }
    else if db.users.any (fun u => u.email == email) then
      { db := db, resp := Response.render "auth.ejs" (some "User with this email already exists."),
        cookie := none }
    else if insFails then
      { db := db, resp := Response.render "auth.ejs" (some "An internal server error occurred."),
        cookie := none }
    else
      let newUser : UserRow :=
        { id := nextId, name := name, email := email, password := bhash password,
          daily_focus_hours := none }
      { db := { db with users := db.users ++ [newUser] },
        resp := Response.redirect "/form",
        cookie := some (jwtSign { id := nextId, name := name } secret now) }

/-- The POST /login handler (index.js lines 148-168).  `bcompare` models
`bcrypt.compare`; `selFails` is whether the SELECT throws. -/
def postLogin (bcompare : String → String → Bool) (selFails : Bool)
    (secret : String) (now : Nat) (db : DB) (body : LoginBody) : AuthResult :=
  if strFalsy body.email || strFalsy body.password then
    { db := db, resp := Response.render "auth.ejs" (some "Email and password are required."),
      cookie := none }
  else
    let email := body.email.getD ""
    let password := body.password.getD ""
    if selFails then
      { db := db, resp := Response.render "auth.ejs" (some "An internal server error occurred."),
        cookie := none }
    else
      match db.users.find? (fun u => u.email == email) with
      | none =>
        { db := db, resp := Response.render "auth.ejs" (some "User not found."), cookie := none }
      | some user =>
        if bcompare password user.password then
          { db := db, resp := Response.redirect "/dashboard",
            cookie := some (jwtSign { id := user.id, name := user.name } secret now) }
        else
          { db := db, resp := Response.render "auth.ejs" (some "Incorrect password."),
            cookie := none }

/-- Whether a server response is a redirect or a rendered page (the only
shapes POST /login and POST /register produce). -/
def isPageOrRedirect : Response → Bool
  | Response.redirect _ => true
  | Response.render _ _ => true
  | _ => false

/-- The success branch of the companion client script (index.js lines 27-34):
it fires only when the response body is JSON carrying a `token` field. -/
def clientTokenBranch : Response → Bool
  | Response.json fields => (fields.find? (fun p => p.1 == "token")).isSome
  | _ => false

/-! ## Theorems -/

/-- C4: for every POST /form request, the dedicated client checked out at the
start of the handler is released on every exit path: after a successful
commit, after a rollback caused by a generation or persistence failure, and
after an exception thrown by the rollback itself. -/
theorem c4_client_always_released (fails : DbOp → Bool) (parse : String → Except Unit Json)
    (genOk : Bool) (genText : String) (user : JwtPayload) (body : FormBody) (db : DB) :
    Event.release ∈ (postForm fails parse genOk genText user body db).events := by
  unfold postForm
  repeat' split
  all_goals simp [formEvents]

/-- C5: every request to a session-protected route whose token is missing,
invalid (wrong signature), or older than its 1-day expiry is redirected to
the login entry point `/` and the protected handler body never executes. -/
theorem c5_expired_session_redirects (handler : JwtPayload → Response)
    (secret : String) (now : Nat) :
    runProtected handler none secret now = (Response.redirect "/", false) ∧
    (∀ t : Token, t.secret ≠ secret ∨ t.exp ≤ now →
      runProtected handler (some t) secret now = (Response.redirect "/", false)) ∧
    (∀ (p : JwtPayload) (t0 : Nat), t0 + 86400 ≤ now →
      runProtected handler (some (jwtSign p secret t0)) secret now
        = (Response.redirect "/", false)) := by
  have hver : ∀ t : Token, t.secret ≠ secret ∨ t.exp ≤ now →
      jwtVerify t secret now = Except.error () := by
    intro t ht
    unfold jwtVerify
    rw [if_neg]
    rintro ⟨hs, hl⟩
    rcases ht with h1 | h2
    · exact h1 hs
    · omega
  refine ⟨rfl, ?_, ?_⟩
  · intro t ht
    simp [runProtected, verifyToken, hver t ht]
  · intro p t0 h0
    have hd : (jwtSign p secret t0).secret ≠ secret ∨ (jwtSign p secret t0).exp ≤ now := by
      right
      simp only [jwtSign]
      omega
    simp [runProtected, verifyToken, hver _ hd]

/-- Witness for C5: a token signed at time 0 with a 1-day expiry is rejected
at time 86400 and the handler body does not run. -/
theorem c5_expired_session_redirects_witness :
    (0 : Nat) + 86400 ≤ 86400 ∧
    runProtected (fun _ => Response.raised) (some (jwtSign ⟨1, "u"⟩ "s" 0)) "s" 86400
      = (Response.redirect "/", false) :=
  ⟨by omega,
    (c5_expired_session_redirects (fun _ => Response.raised) "s" 86400).2.2 ⟨1, "u"⟩ 0 (by omega)⟩

/-- C10: when verification of a present token fails, the handler clears the
`token` cookie before redirecting to `/`; when the token is absent, no
cookie is cleared, only the redirect happens. -/
theorem c10_clear_cookie_on_invalid_token (secret : String) (now : Nat) (t : Token)
    (hv : jwtVerify t secret now = Except.error ()) :
    (verifyToken (some t) secret now).clearedCookie = true ∧
    (verifyToken (some t) secret now).resp = some (Response.redirect "/") ∧
    (verifyToken none secret now).clearedCookie = false ∧
    (verifyToken none secret now).resp = some (Response.redirect "/") := by
  refine ⟨?_, ?_, rfl, rfl⟩ <;> simp [verifyToken, hv]

/-- Witness for C10: an expired token has its cookie cleared; a missing one
does not. -/
theorem c10_clear_cookie_on_invalid_token_witness :
    jwtVerify (jwtSign ⟨1, "u"⟩ "s" 0) "s" 99999 = Except.error () ∧
    (verifyToken (some (jwtSign ⟨1, "u"⟩ "s" 0)) "s" 99999).clearedCookie = true ∧
    (verifyToken (some (jwtSign ⟨1, "u"⟩ "s" 0)) "s" 99999).resp = some (Response.redirect "/") ∧
    (verifyToken none "s" 99999).clearedCookie = false ∧
    (verifyToken none "s" 99999).resp = some (Response.redirect "/") := by
  refine ⟨by rfl, ?_⟩
  exact c10_clear_cookie_on_invalid_token "s" 99999 (jwtSign ⟨1, "u"⟩ "s" 0) (by rfl)

/-- Every POST /register response is a redirect or a rendered page and never
a JSON body with a `token` field. -/
theorem registerRespShape (bhash : String → String) (selFails insFails : Bool)
    (secret : String) (now nextId : Nat) (db : DB) (rbody : RegisterBody) :
    isPageOrRedirect (postRegister bhash selFails insFails secret now nextId db rbody).resp = true ∧
    clientTokenBranch (postRegister bhash selFails insFails secret now nextId db rbody).resp = false := by
  unfold postRegister
  by_cases h1 : (strFalsy rbody.name || strFalsy rbody.email || strFalsy rbody.password) = true
  · simp [h1, isPageOrRedirect, clientTokenBranch]
  · by_cases h2 : selFails = true
    · simp [h1, h2, isPageOrRedirect, clientTokenBranch]
    · by_cases h3 : db.users.any (fun u => u.email == rbody.email.getD "") = true
      · simp [h1, h2, h3, isPageOrRedirect, clientTokenBranch]
      · by_cases h4 : insFails = true <;>
          simp [h1, h2, h3, h4, isPageOrRedirect, clientTokenBranch]

/-- Every POST /login response is a redirect or a rendered page and never a
JSON body with a `token` field. -/
theorem loginRespShape (bcompare : String → String → Bool) (selFailsL : Bool)
    (secret : String) (now : Nat) (dbL : DB) (lbody : LoginBody) :
    isPageOrRedirect (postLogin bcompare selFailsL secret now dbL lbody).resp = true ∧
    clientTokenBranch (postLogin bcompare selFailsL secret now dbL lbody).resp = false := by
  unfold postLogin
  split
  · simp [isPageOrRedirect, clientTokenBranch]
  · split
    · simp [isPageOrRedirect, clientTokenBranch]
    · rcases hf : List.find? (fun u => u.email == lbody.email.getD "") dbL.users with _ | u
      · simp [hf, isPageOrRedirect, clientTokenBranch]
      · simp only [hf]
        split <;> simp [isPageOrRedirect, clientTokenBranch]

/-- C9: POST /login and POST /register always answer with a redirect or a
rendered page, never a JSON body with a `token` field, so the companion
client script's success branch (which reads `data.token`) can never fire. -/
theorem c9_auth_never_returns_token_json (bhash : String → String)
    (bcompare : String → String → Bool) (selFails insFails selFailsL : Bool)
    (secret : String) (now nextId : Nat) (db dbL : DB)
    (rbody : RegisterBody) (lbody : LoginBody) :
    isPageOrRedirect (postRegister bhash selFails insFails secret now nextId db rbody).resp = true ∧
    clientTokenBranch (postRegister bhash selFails insFails secret now nextId db rbody).resp = false ∧
    isPageOrRedirect (postLogin bcompare selFailsL secret now dbL lbody).resp = true ∧
    clientTokenBranch (postLogin bcompare selFailsL secret now dbL lbody).resp = false := by
  obtain ⟨h1, h2⟩ := registerRespShape bhash selFails insFails secret now nextId db rbody
  obtain ⟨h3, h4⟩ := loginRespShape bcompare selFailsL secret now dbL lbody
  exact ⟨h1, h2, h3, h4⟩

/-- Every operation recorded by the insert loop is an insert of a row built
by `mkRow` from one of the iterated values, for the handler's user id. -/
theorem runInserts_ops_mem (fails : DbOp → Bool) (uid : Nat) :
    ∀ (items : List Json) (w : DB) (op : DbOp), op ∈ (runInserts fails uid items w).2 →
      ∃ it ∈ items, op = DbOp.ins (mkRow it uid) := by
  intro items
  induction items with
  | nil => intro w op h; simp [runInserts] at h
  | cons it rest ih =>
    intro w op h
    unfold runInserts at h
    by_cases hf : fails (DbOp.ins (mkRow it uid)) = true
    · simp [hf] at h
      exact ⟨it, by simp, h⟩
    · simp [hf] at h
      rcases h with h | h
      · exact ⟨it, by simp, h⟩
      · obtain ⟨it2, h2, h3⟩ := ih _ _ h
        exact ⟨it2, by simp [h2], h3⟩

/-- Every operation attempted by the persistence transaction is BEGIN,
COMMIT, the user's DELETE, the user's UPDATE, or an INSERT of a `mkRow`
row for the same user id. -/
theorem runTx_ops_shape (fails : DbOp → Bool) (uid : Nat) (dt : Option String) (j : Json) (db : DB) :
    ∀ op ∈ (runTx fails uid dt j db).2,
      op = DbOp.begin ∨ op = DbOp.commit ∨ op = DbOp.del uid ∨ op = DbOp.upd dt uid ∨
        ∃ it, op = DbOp.ins (mkRow it uid) := by
  intro op hop
  unfold runTx at hop
  by_cases hb : fails DbOp.begin = true
  · simp [hb] at hop
    simp [hop]
  · simp only [hb, Bool.false_eq_true, if_false] at hop
    by_cases hd : fails (DbOp.del uid) = true
    · simp [hd] at hop
      rcases hop with h | h <;> simp [h]
    · simp only [hd, Bool.false_eq_true, if_false] at hop
      rcases hj : jsIterate j with _ | items <;> simp only [hj] at hop
      · simp at hop
        rcases hop with h | h <;> simp [h]
      · rcases hri : runInserts fails uid items (delItems uid db) with ⟨res, ops⟩
        rw [hri] at hop
        have hops : (runInserts fails uid items (delItems uid db)).2 = ops := by rw [hri]
        rcases res with e | w2
        · simp at hop
          rcases hop with h | h | h
          · simp [h]
          · simp [h]
          · obtain ⟨it, _, h3⟩ := runInserts_ops_mem fails uid items _ op (by rw [hops]; exact h)
            exact Or.inr (Or.inr (Or.inr (Or.inr ⟨it, h3⟩)))
        · have hmem : op = DbOp.begin ∨ op = DbOp.del uid ∨ op ∈ ops ∨
              op = DbOp.upd dt uid ∨ op = DbOp.commit := by
            by_cases hu : fails (DbOp.upd dt uid) = true
            · simp [hu] at hop
              tauto
            · simp only [hu, Bool.false_eq_true, if_false] at hop
              by_cases hc : fails DbOp.commit = true <;> simp [hc] at hop <;> tauto
          rcases hmem with h | h | h | h | h
          · simp [h]
          · simp [h]
          · obtain ⟨it, _, h3⟩ := runInserts_ops_mem fails uid items _ op (by rw [hops]; exact h)
            exact Or.inr (Or.inr (Or.inr (Or.inr ⟨it, h3⟩)))
          · simp [h]
          · simp [h]

/-- C8: the user identifier of every database write performed by POST /form
(the delete, each insert, the daily-focus-hours update) comes from the
verified session token's decoded identity, never from the request body: for
any body, a write op recorded in the handler's events targets `user.id`. -/
theorem c8_writes_use_session_identity (fails : DbOp → Bool) (parse : String → Except Unit Json)
    (genOk : Bool) (genText : String) (user : JwtPayload) (body : FormBody) (db : DB)
    (op : DbOp) (v : Nat)
    (hop : Event.query op ∈ (postForm fails parse genOk genText user body db).events)
    (hv : DbOp.targetUser op = some v) : v = user.id := by
  have hshape : ∀ (dt : Option String) (j : Json),
      op ∈ (runTx fails user.id dt j db).2 → v = user.id := by
    intro dt j hmem
    rcases runTx_ops_shape fails user.id dt j db op hmem with h | h | h | h | ⟨it, h⟩ <;>
      subst h <;> simp [DbOp.targetUser, mkRow] at hv <;> omega
  have hrb : op = DbOp.rollback → False := by
    intro h
    subst h
    simp [DbOp.targetUser] at hv
  unfold postForm at hop
  by_cases hg : genOk = false
  · simp only [hg, if_true] at hop
    by_cases hr : fails DbOp.rollback = true <;>
      simp [hr, formEvents] at hop <;> exact absurd hop hrb
  · simp only [hg, if_false] at hop
    rcases hp : parse (cleanResponse genText) with e | j <;> simp only [hp] at hop
    · by_cases hr : fails DbOp.rollback = true <;>
        simp [hr, formEvents] at hop <;> exact absurd hop hrb
    · rcases htx : runTx fails user.id body.dailytime j db with ⟨res, ops⟩
      rw [htx] at hop
      have hops : (runTx fails user.id body.dailytime j db).2 = ops := by rw [htx]
      rcases res with e | d2
      · by_cases hr : fails DbOp.rollback = true <;> simp [hr, formEvents] at hop <;>
          (rcases hop with h | h
           · exact hshape body.dailytime j (by rw [hops]; exact h)
           · exact absurd h hrb)
      · simp [formEvents] at hop
        exact hshape body.dailytime j (by rw [hops]; exact hop)

/-- One well-formed candidate entry, used by concrete witnesses. -/
def itemW : Json :=
  Json.obj [("dayOfWeek", Json.str "Monday"), ("startTime", Json.str "09:00"),
    ("endTime", Json.str "11:00"), ("subject", Json.str "Math")]

/-- A concrete POST /form body, used by concrete witnesses. -/
def bodyW : FormBody :=
  { goal := some "g", subjects := some "Math", methods := some "m", deadline := some "7"
    remarks := some "r", dailytime := some "2", slots := some "sl", flexibility := some "f" }

/-- A concrete database holding one user with one prior schedule row, used by
concrete witnesses. -/
def dbW : DB :=
  { users := [{ id := 1, name := "u", email := "e", password := "p", daily_focus_hours := none }]
    schedule_items := [{ day_of_week := some "Friday", start_time := some "08:00", end_time := some "09:00", subject := some "Old", user_id := 1 }]
    user_streaks := [] }

/-- Witness for C8: a successful run's delete event targets the session
user's id. -/
theorem c8_writes_use_session_identity_witness :
    Event.query (DbOp.del 1) ∈
      (postForm (fun _ => false) (fun _ => Except.ok (Json.arr [itemW])) true "x"
        ⟨1, "u"⟩ bodyW dbW).events ∧
    (1 : Nat) = (1 : Nat) :=
  ⟨by decide,
    c8_writes_use_session_identity (fun _ => false) (fun _ => Except.ok (Json.arr [itemW]))
      true "x" ⟨1, "u"⟩ bodyW dbW (DbOp.del 1) 1 (by decide) rfl⟩

/-- With no database failures, the insert loop appends one row per candidate
and records one insert per candidate, in order. -/
theorem runInserts_noFail (fails : DbOp → Bool) (uid : Nat) (hf : ∀ op, fails op = false) :
    ∀ (items : List Json) (w : DB),
      runInserts fails uid items w =
        (Except.ok (items.foldl (fun acc it => insRow (mkRow it uid) acc) w),
         items.map (fun it => DbOp.ins (mkRow it uid))) := by
  intro items
  induction items with
  | nil => intro w; simp [runInserts]
  | cons it rest ih => intro w; simp [runInserts, hf, ih]

/-- Folding the insert loop appends the built rows, in order. -/
theorem foldl_insRow_schedule (uid : Nat) :
    ∀ (items : List Json) (w : DB),
      (items.foldl (fun acc it => insRow (mkRow it uid) acc) w).schedule_items
        = w.schedule_items ++ items.map (fun it => mkRow it uid) := by
  intro items
  induction items with
  | nil => intro w; simp
  | cons it rest ih =>
    intro w
    rw [List.foldl_cons, ih]
    simp [insRow]

/-- The insert loop leaves the `users` table untouched. -/
theorem foldl_insRow_users (uid : Nat) :
    ∀ (items : List Json) (w : DB),
      (items.foldl (fun acc it => insRow (mkRow it uid) acc) w).users = w.users := by
  intro items
  induction items with
  | nil => intro w; rfl
  | cons it rest ih =>
    intro w
    rw [List.foldl_cons, ih]
    rfl

/-- With no database failures, the transaction on an array response commits
delete-inserts-update and records the full operation list. -/
theorem runTx_noFail (fails : DbOp → Bool) (uid : Nat) (dt : Option String)
    (items : List Json) (db : DB) (hf : ∀ op, fails op = false) :
    runTx fails uid dt (Json.arr items) db =
      (Except.ok (updUser uid dt (items.foldl (fun acc it => insRow (mkRow it uid) acc) (delItems uid db))),
       DbOp.begin :: DbOp.del uid ::
         (items.map (fun it => DbOp.ins (mkRow it uid)) ++ [DbOp.upd dt uid, DbOp.commit])) := by
  simp [runTx, hf, jsIterate, runInserts_noFail fails uid hf]

/-- C1: when the generator's cleaned response parses as a JSON array of N
entries and every database step succeeds, the request redirects to the
dashboard, the committed schedule for the session user is exactly the
candidate list in array order (no reordering, no dedup, prior rows gone),
and the user's `daily_focus_hours` equals the submitted `dailytime`. -/
theorem c1_commit_equals_candidates (fails : DbOp → Bool) (parse : String → Except Unit Json)
    (genText : String) (user : JwtPayload) (body : FormBody) (db : DB) (items : List Json)
    (hf : ∀ op, fails op = false)
    (hp : parse (cleanResponse genText) = Except.ok (Json.arr items)) :
    (postForm fails parse true genText user body db).resp = Response.redirect "/dashboard" ∧
    (postForm fails parse true genText user body db).db.schedule_items =
      db.schedule_items.filter (fun r => r.user_id != user.id)
        ++ items.map (fun it => mkRow it user.id) ∧
    (postForm fails parse true genText user body db).db.schedule_items.filter
        (fun r => r.user_id == user.id) = items.map (fun it => mkRow it user.id) ∧
    (∀ u ∈ (postForm fails parse true genText user body db).db.users,
        u.id = user.id → u.daily_focus_hours = body.dailytime) := by
  have hrun := runTx_noFail fails user.id body.dailytime items db hf
  have hpost : postForm fails parse true genText user body db =
      { db := updUser user.id body.dailytime
          (items.foldl (fun acc it => insRow (mkRow it user.id) acc) (delItems user.id db)),
        resp := Response.redirect "/dashboard",
        events := formEvents (DbOp.begin :: DbOp.del user.id ::
          (items.map (fun it => DbOp.ins (mkRow it user.id)) ++ [DbOp.upd body.dailytime user.id, DbOp.commit])) } := by
    unfold postForm
    simp [hp, hrun]
  rw [hpost]
  refine ⟨rfl, ?_, ?_, ?_⟩
  · simp [updUser, foldl_insRow_schedule, delItems]
  · simp only [updUser, foldl_insRow_schedule, delItems]
    rw [List.filter_append]
    have h1 : (db.schedule_items.filter (fun r => r.user_id != user.id)).filter
        (fun r => r.user_id == user.id) = [] := by
      simp [List.filter_filter]
    have h2 : (items.map (fun it => mkRow it user.id)).filter
        (fun r => r.user_id == user.id) = items.map (fun it => mkRow it user.id) := by
      rw [List.filter_eq_self]
      intro r hr
      obtain ⟨it, _, rfl⟩ := List.mem_map.mp hr
      simp [mkRow]
    rw [h1, h2]
    rfl
  · intro u hu huid
    simp only [updUser, foldl_insRow_users, delItems] at hu
    obtain ⟨u0, hu0, rfl⟩ := List.mem_map.mp hu
    by_cases h0 : u0.id == user.id
    · simp [h0]
    · have h0f : (u0.id == user.id) = false := by simpa using h0
      simp [h0f] at huid ⊢
      exact absurd huid (by simpa using h0f)

/-- Witness for C1: one candidate entry is committed verbatim and the focus
hours are updated. -/
theorem c1_commit_equals_candidates_witness :
    (postForm (fun _ => false) (fun _ => Except.ok (Json.arr [itemW])) true "x"
        ⟨1, "u"⟩ bodyW dbW).resp = Response.redirect "/dashboard" ∧
    (postForm (fun _ => false) (fun _ => Except.ok (Json.arr [itemW])) true "x"
        ⟨1, "u"⟩ bodyW dbW).db.schedule_items =
      dbW.schedule_items.filter (fun r => r.user_id != 1)
        ++ [itemW].map (fun it => mkRow it 1) ∧
    (postForm (fun _ => false) (fun _ => Except.ok (Json.arr [itemW])) true "x"
        ⟨1, "u"⟩ bodyW dbW).db.schedule_items.filter
        (fun r => r.user_id == 1) = [itemW].map (fun it => mkRow it 1) ∧
    (∀ u ∈ (postForm (fun _ => false) (fun _ => Except.ok (Json.arr [itemW])) true "x"
        ⟨1, "u"⟩ bodyW dbW).db.users, u.id = 1 → u.daily_focus_hours = bodyW.dailytime) :=
  c1_commit_equals_candidates (fun _ => false) (fun _ => Except.ok (Json.arr [itemW]))
    "x" ⟨1, "u"⟩ bodyW dbW [itemW] (fun _ => rfl) rfl

/-- If the insert loop succeeds, no insert in the candidate list was marked
as failing. -/
theorem runInserts_ok_inv (fails : DbOp → Bool) (uid : Nat) :
    ∀ (items : List Json) (w : DB) (d : DB),
      (runInserts fails uid items w).1 = Except.ok d →
      ∀ it ∈ items, fails (DbOp.ins (mkRow it uid)) = false := by
  intro items
  induction items with
  | nil => intro w d _ it hit; simp at hit
  | cons it0 rest ih =>
    intro w d h it hit
    unfold runInserts at h
    by_cases hf : fails (DbOp.ins (mkRow it0 uid)) = true
    · simp [hf] at h
    · simp only [hf, Bool.false_eq_true, if_false] at h
      rcases List.mem_cons.mp hit with hit | hit
      · subst hit
        simpa using hf
      · exact ih _ d h it hit

/-- If the transaction commits, its delete, update and every insert for the
iterated values succeeded. -/
theorem runTx_ok_inv (fails : DbOp → Bool) (uid : Nat) (dt : Option String)
    (j : Json) (db : DB) (d : DB)
    (h : (runTx fails uid dt j db).1 = Except.ok d) :
    fails (DbOp.del uid) = false ∧ fails (DbOp.upd dt uid) = false ∧
    ∀ items, jsIterate j = some items →
      ∀ it ∈ items, fails (DbOp.ins (mkRow it uid)) = false := by
  unfold runTx at h
  by_cases hb : fails DbOp.begin = true
  · simp [hb] at h
  · simp only [hb, Bool.false_eq_true, if_false] at h
    by_cases hd : fails (DbOp.del uid) = true
    · simp [hd] at h
    · simp only [hd, Bool.false_eq_true, if_false] at h
      rcases hj : jsIterate j with _ | items0 <;> simp only [hj] at h
      · simp at h
      · rcases hri : runInserts fails uid items0 (delItems uid db) with ⟨res, ops⟩
        rw [hri] at h
        rcases res with e | w2
        · simp at h
        · by_cases hu : fails (DbOp.upd dt uid) = true
          · simp [hu] at h
          · refine ⟨by simpa using hd, by simpa using hu, ?_⟩
            intro items hitems it hit
            have heq := Option.some.inj hitems
            subst heq
            exact runInserts_ok_inv fails uid items0 _ w2 (by rw [hri]) it hit

/-- C2: if any persistence step fails (the delete, a single insert, or the
daily-focus-hours update), the whole transaction is rolled back: no new row
is committed, no prior row is deleted, the observable state equals the state
before the call, and a ROLLBACK is issued. -/
theorem c2_rollback_on_step_failure (fails : DbOp → Bool) (parse : String → Except Unit Json)
    (genText : String) (user : JwtPayload) (body : FormBody) (db : DB) (items : List Json)
    (hp : parse (cleanResponse genText) = Except.ok (Json.arr items))
    (hfail : fails (DbOp.del user.id) = true ∨
             (∃ it ∈ items, fails (DbOp.ins (mkRow it user.id)) = true) ∨
             fails (DbOp.upd body.dailytime user.id) = true) :
    (postForm fails parse true genText user body db).db = db ∧
    Event.query DbOp.rollback ∈ (postForm fails parse true genText user body db).events := by
  rcases htx : runTx fails user.id body.dailytime (Json.arr items) db with ⟨res, ops⟩
  have hres : res = Except.error () := by
    rcases res with e | d
    · cases e; rfl
    · exfalso
      obtain ⟨h1, h2, h3⟩ := runTx_ok_inv fails user.id body.dailytime (Json.arr items) db d
        (by rw [htx])
      rcases hfail with hf | ⟨it, hit, hf⟩ | hf
      · rw [h1] at hf; cases hf
      · have := h3 items (by simp [jsIterate]) it hit
        rw [this] at hf; cases hf
      · rw [h2] at hf; cases hf
  subst hres
  unfold postForm
  simp only [hp, htx]
  by_cases hr : fails DbOp.rollback = true <;> simp [hr, formEvents]

/-- Witness for C2: a failing DELETE leaves the database untouched and a
ROLLBACK is issued. -/
theorem c2_rollback_on_step_failure_witness :
    (postForm (fun op => decide (op = DbOp.del 1)) (fun _ => Except.ok (Json.arr [itemW]))
        true "x" ⟨1, "u"⟩ bodyW dbW).db = dbW ∧
    Event.query DbOp.rollback ∈
      (postForm (fun op => decide (op = DbOp.del 1)) (fun _ => Except.ok (Json.arr [itemW]))
        true "x" ⟨1, "u"⟩ bodyW dbW).events :=
  c2_rollback_on_step_failure (fun op => decide (op = DbOp.del 1))
    (fun _ => Except.ok (Json.arr [itemW])) "x" ⟨1, "u"⟩ bodyW dbW [itemW] rfl
    (Or.inl (by decide))

/-- A model of `JSON.parse` agreeing with the JavaScript runtime on the
input reached in the C3 counterexample: the text `"ab"` (a quoted string) is
valid JSON and parses to the string value `ab`. -/
def parse3 : String → Except Unit Json :=
  fun s => if s == "\"ab\"" then Except.ok (Json.str "ab") else Except.error ()

/-- C3 counterexample: a cleaned response that is valid JSON but NOT a JSON
array (the JSON string `"ab"`) does not make the generation step fail:
`for...of` iterates the string character by character, the handler commits
one null-field row per character, replaces the prior schedule, and redirects
to the dashboard instead of answering with a server error. -/
theorem c3_counterexample :
    parse3 (cleanResponse "\"ab\"") = Except.ok (Json.str "ab") ∧
    (postForm (fun _ => false) parse3 true "\"ab\"" ⟨1, "u"⟩ bodyW dbW).resp
      = Response.redirect "/dashboard" ∧
    (postForm (fun _ => false) parse3 true "\"ab\"" ⟨1, "u"⟩ bodyW dbW).db.schedule_items
      ≠ dbW.schedule_items :=
  ⟨rfl, by decide, by decide⟩

/-- C3 (amended): the generation step fails whenever the cleaned response is
not valid JSON, or parses to a JSON value that is not iterable (an object, a
number, a boolean, or null); in those cases the request answers 500 and the
persisted state is unchanged.  A JSON string, however, is iterated character
by character and is not rejected. -/
theorem c3_parse_failure_rolls_back (fails : DbOp → Bool) (parse : String → Except Unit Json)
    (genText : String) (user : JwtPayload) (body : FormBody) (db : DB)
    (hgen : parse (cleanResponse genText) = Except.error () ∨
      ∃ j, parse (cleanResponse genText) = Except.ok j ∧ jsIterate j = none)
    (hr : fails DbOp.rollback = false) :
    (postForm fails parse true genText user body db).resp = Response.send 500 errorMessage ∧
    (postForm fails parse true genText user body db).db = db := by
  rcases hgen with hp | ⟨j, hp, hj⟩
  · unfold postForm
    simp [hp, hr]
  · have htx : (runTx fails user.id body.dailytime j db).1 = Except.error () := by
      unfold runTx
      by_cases hb : fails DbOp.begin = true
      · simp [hb]
      · simp only [hb, Bool.false_eq_true, if_false]
        by_cases hd : fails (DbOp.del user.id) = true
        · simp [hd]
        · simp [hd, hj]
    rcases htx2 : runTx fails user.id body.dailytime j db with ⟨res, ops⟩
    have hres : res = Except.error () := by
      rw [htx2] at htx
      simpa using htx
    subst hres
    unfold postForm
    simp [hp, htx2, hr]

/-- Witness for C3 (amended): an invalid-JSON response answers 500 and
leaves the database unchanged. -/
theorem c3_parse_failure_rolls_back_witness :
    (postForm (fun _ => false) (fun _ => Except.error ()) true "not json"
        ⟨1, "u"⟩ bodyW dbW).resp = Response.send 500 errorMessage ∧
    (postForm (fun _ => false) (fun _ => Except.error ()) true "not json"
        ⟨1, "u"⟩ bodyW dbW).db = dbW :=
  c3_parse_failure_rolls_back (fun _ => false) (fun _ => Except.error ()) "not json"
    ⟨1, "u"⟩ bodyW dbW (Or.inl rfl) rfl

/-- A model of `bcrypt.hash` at cost 10 for the C6 witness: a salted-hash
prefix ahead of a digest; never equal to its input on the witness data. -/
def bhashW : String → String := fun s => "$2b$10$" ++ s

/-- A concrete POST /register body for the C6 witness. -/
def regBodyW : RegisterBody := { name := some "n", email := some "e@x", password := some "pw" }

/-- A concrete user store already holding the witness email. -/
def dbW6 : DB :=
  { users := [{ id := 1, name := "a", email := "e@x", password := "h", daily_focus_hours := none }]
    schedule_items := []
    user_streaks := [] }

/-- C6: registering with an email already present fails with the
duplicate-email error page, issues no session token, and creates no second
User row; with a fresh email a User row is stored whose password field holds
the one-way salted bcrypt hash (never the plaintext) and a session token is
issued. -/
theorem c6_register_duplicate_email (bhash : String → String) (secret : String)
    (now nextId : Nat) (db : DB) (body : RegisterBody) (emailv : String)
    (hemail : body.email = some emailv)
    (hn : strFalsy body.name = false) (he : strFalsy body.email = false)
    (hp : strFalsy body.password = false)
    (hhash : bhash (body.password.getD "") ≠ body.password.getD "") :
    ((∃ u ∈ db.users, u.email = emailv) →
      (postRegister bhash false false secret now nextId db body).db = db ∧
      (postRegister bhash false false secret now nextId db body).cookie = none ∧
      (postRegister bhash false false secret now nextId db body).resp =
        Response.render "auth.ejs" (some "User with this email already exists.")) ∧
    ((∀ u ∈ db.users, u.email ≠ emailv) →
      (postRegister bhash false false secret now nextId db body).db.users =
        db.users ++ [{ id := nextId, name := body.name.getD "", email := emailv,
                       password := bhash (body.password.getD ""), daily_focus_hours := none }] ∧
      ({ id := nextId, name := body.name.getD "", email := emailv,
         password := bhash (body.password.getD ""), daily_focus_hours := none } : UserRow).password
        ≠ body.password.getD "" ∧
      (postRegister bhash false false secret now nextId db body).cookie =
        some (jwtSign { id := nextId, name := body.name.getD "" } secret now)) := by
  have hcond : (strFalsy body.name || strFalsy body.email || strFalsy body.password) = false := by
    simp [hn, he, hp]
  have hgetD : body.email.getD "" = emailv := by rw [hemail]; rfl
  constructor
  · intro hex
    refine ⟨?_, ?_, ?_⟩ <;> simp [postRegister, hcond, hgetD, hex]
  · intro h
    have hex : ¬ ∃ x ∈ db.users, x.email = emailv := by
      rintro ⟨u, hu, hue⟩
      exact h u hu hue
    refine ⟨?_, hhash, ?_⟩ <;> simp [postRegister, hcond, hgetD, hex]

/-- Witness for C6: registering the email already present in `dbW6` changes
nothing and renders the duplicate-email error. -/
theorem c6_register_duplicate_email_witness :
    bhashW "pw" ≠ "pw" ∧
    (postRegister bhashW false false "s" 0 2 dbW6 regBodyW).db = dbW6 ∧
    (postRegister bhashW false false "s" 0 2 dbW6 regBodyW).cookie = none ∧
    (postRegister bhashW false false "s" 0 2 dbW6 regBodyW).resp =
      Response.render "auth.ejs" (some "User with this email already exists.") :=
  ⟨by decide,
    (c6_register_duplicate_email bhashW "s" 0 2 dbW6 regBodyW "e@x" rfl rfl rfl rfl
      (by decide)).1 ⟨{ id := 1, name := "a", email := "e@x", password := "h", daily_focus_hours := none }, by decide, rfl⟩⟩

/-- The dashboard comparator is transitive. -/
theorem rowLe_trans (a b c : ScheduleRow) (hab : rowLe a b) (hbc : rowLe b c) : rowLe a c := by
  simp only [rowLe, decide_eq_true_eq] at hab hbc ⊢
  exact le_trans hab hbc

/-- The dashboard comparator is total. -/
theorem rowLe_total (a b : ScheduleRow) : rowLe a b || rowLe b a := by
  simp only [rowLe, Bool.or_eq_true, decide_eq_true_eq]
  exact le_total _ _

/-- C7: on GET /dashboard, a missing User row redirects to `/` (no
fabricated data); otherwise the page holds exactly the user's ScheduleItems
(a permutation of them) sorted by Monday-first day-of-week rank and then by
start time, and a missing StreakRecord row defaults both streak fields to
zero. -/
theorem c7_dashboard_read_model (db : DB) (uid : Nat) :
    (db.users.find? (fun u => u.id == uid) = none →
      getDashboard false db uid = DashResult.redirect "/") ∧
    (∀ u, db.users.find? (fun u => u.id == uid) = some u →
      ∃ items sc ls,
        getDashboard false db uid =
          DashResult.page u.name items (focusDisplay u.daily_focus_hours) sc ls
            "Planning is the first step to success!" ∧
        items.Perm (db.schedule_items.filter (fun r => r.user_id == uid)) ∧
        items.Pairwise (fun a b => rowKey a ≤ rowKey b) ∧
        (streakRowFor db uid = none → sc = 0 ∧ ls = 0) ∧
        (∀ srow, streakRowFor db uid = some srow →
          sc = srow.streak_count ∧ ls = srow.longest_streak)) := by
  have hsorted : ((db.schedule_items.filter (fun r => r.user_id == uid)).mergeSort rowLe).Pairwise
      (fun a b => rowKey a ≤ rowKey b) :=
    (List.sorted_mergeSort rowLe_trans rowLe_total _).imp (fun h => by
      simpa only [rowLe, decide_eq_true_eq] using h)
  constructor
  · intro h
    simp [getDashboard, h]
  · intro u hu
    rcases hs : streakRowFor db uid with _ | srow
    · refine ⟨(db.schedule_items.filter (fun r => r.user_id == uid)).mergeSort rowLe, 0, 0,
        ?_, List.mergeSort_perm _ _, hsorted, fun _ => ⟨rfl, rfl⟩, ?_⟩
      · simp [getDashboard, hu, hs]
      · intro srow h
        simp at h
    · refine ⟨(db.schedule_items.filter (fun r => r.user_id == uid)).mergeSort rowLe,
        srow.streak_count, srow.longest_streak,
        ?_, List.mergeSort_perm _ _, hsorted, ?_, ?_⟩
      · simp [getDashboard, hu, hs]
      · intro h
        simp at h
      · intro srow2 h
        injection h with h
        subst h
        exact ⟨rfl, rfl⟩

/-- The user row of the C7 witness database. -/
def userW7 : UserRow := { id := 1, name := "u", email := "e", password := "p", daily_focus_hours := some "2" }

/-- A concrete database for the C7 witness: one user, two schedule rows, no
streak row. -/
def dbW7 : DB :=
  { users := [userW7]
    schedule_items := [{ day_of_week := some "Tuesday", start_time := some "09:00", end_time := some "10:00", subject := some "B", user_id := 1 }, { day_of_week := some "Monday", start_time := some "09:00", end_time := some "11:00", subject := some "A", user_id := 1 }]
    user_streaks := [] }

/-- Witness for C7: the witness user's dashboard page exists with sorted
items and zero/zero streak defaults. -/
theorem c7_dashboard_read_model_witness :
    dbW7.users.find? (fun u => u.id == 1) = some userW7 ∧
    (∃ items sc ls,
      getDashboard false dbW7 1 =
        DashResult.page userW7.name items (focusDisplay userW7.daily_focus_hours) sc ls
          "Planning is the first step to success!" ∧
      items.Perm (dbW7.schedule_items.filter (fun r => r.user_id == 1)) ∧
      items.Pairwise (fun a b => rowKey a ≤ rowKey b) ∧
      (streakRowFor dbW7 1 = none → sc = 0 ∧ ls = 0) ∧
      (∀ srow, streakRowFor dbW7 1 = some srow →
        sc = srow.streak_count ∧ ls = srow.longest_streak)) :=
  ⟨by decide, (c7_dashboard_read_model dbW7 1).2 userW7 (by decide)⟩

end StudyApp
